import Mathlib

/-!
Verification development for the dynafed_storagestats repository.

The repository consists of a monolithic script (ugrstoragestats.py) and a
package (dynafed_storagestats/...).  The definitions below are shallow
embeddings of the functions the claims are about:

* Python string operations (strip, split, partition, endswith, lower,
  int(...)) are modelled by executable Lean functions over `List Char`;
* `convert_size_to_bytes` from ugrstoragestats.py;
* `parse_conf_files` from dynafed_storagestats/configloader.py;
* `StorageStats.validate_plugin_options` from ugrstoragestats.py;
* `process_rfc4331_response` from dynafed_storagestats/xml.py;
* `list_blobs` from dynafed_storagestats/azure/helpers.py;
* the S3 `generic` listing loop of `S3StorageStats.get_storagestats`
  from ugrstoragestats.py;
* the construction/dispatch pipeline (`get_endpoints` and the __main__
  loop of ugrstoragestats.py, and `get_storage_share_objects` of
  dynafed_storagestats/configloader.py).

Python exceptions are modelled by explicit result constructors; uncaught
exceptions (NameError, KeyError, AttributeError, TypeError, ValueError)
get their own constructors so that the crash behaviour of the code is
kept distinct from its deliberate error raises.
-/

/-! ### Python string primitives -/

/-- Does `l` start with `pat` (character lists)? -/
def listStartsWith : List Char → List Char → Bool
  | [], _ => true
  | _ :: _, [] => false
  | p :: ps, c :: cs => p == c && listStartsWith ps cs

/-- Leftmost occurrence of `pat` in `l`: returns the part before the
occurrence and the part after it, or `none` when `pat` does not occur. -/
def firstSplitAt (pat : List Char) : List Char → Option (List Char × List Char)
  | [] => if listStartsWith pat [] then some ([], ([] : List Char).drop pat.length) else none
  | c :: cs =>
    if listStartsWith pat (c :: cs) then some ([], (c :: cs).drop pat.length)
    else
      match firstSplitAt pat cs with
      | none => none
      | some (a, b) => some (c :: a, b)

/-- Python's `pat in s` substring test. -/
def containsTok (l pat : List Char) : Bool := (firstSplitAt pat l).isSome

/-- Python's `str.split(sep)` on character lists (non-overlapping,
left-to-right); the fuel argument only serves termination and is large
enough for every nonempty separator. -/
def pySplitAux : Nat → List Char → List Char → List (List Char)
  | 0, _, l => [l]
  | fuel + 1, pat, l =>
    match firstSplitAt pat l with
    | none => [l]
    | some (a, b) => a :: pySplitAux fuel pat b

def pySplitList (pat l : List Char) : List (List Char) := pySplitAux (l.length + 1) pat l

def pySplitStr (s sep : String) : List String := (pySplitList sep.data s.data).map fun cs => ⟨cs⟩

/-- Python's `pat in s` on strings. -/
def containsStr (s pat : String) : Bool := containsTok s.data pat.data

/-- Python's `s.endswith(pat)`. -/
def strEndsWithStr (s pat : String) : Bool := listStartsWith pat.data.reverse s.data.reverse

/-- Python's `s.strip()` (whitespace on both ends). -/
def pyStripList (l : List Char) : List Char :=
  ((l.dropWhile Char.isWhitespace).reverse.dropWhile Char.isWhitespace).reverse

def pyStrip (s : String) : String := ⟨pyStripList s.data⟩

/-- Python's `s.lower()` (the configuration values are ASCII). -/
def pyLower (s : String) : String := ⟨s.data.map Char.toLower⟩

/-- Python's `s.split()` (split on whitespace runs, dropping empties). -/
def wsplitAux : List Char → List Char → List (List Char)
  | [], acc => if acc.isEmpty then [] else [acc.reverse]
  | c :: cs, acc =>
    if c.isWhitespace then
      if acc.isEmpty then wsplitAux cs [] else acc.reverse :: wsplitAux cs []
    else wsplitAux cs (c :: acc)

def pyWhitespaceSplit (s : String) : List String := (wsplitAux s.data []).map fun cs => ⟨cs⟩

def digitsToNatAux : List Char → Nat → Option Nat
  | [], acc => some acc
  | c :: cs, acc => if c.isDigit then digitsToNatAux cs (acc * 10 + (c.toNat - '0'.toNat)) else none

/-- Python's `int(s)` for decimal strings: optional surrounding
whitespace, optional sign, a nonempty digit run; anything else raises
ValueError, modelled as `none`. -/
def pyInt (s : String) : Option Int :=
  match pyStripList s.data with
  | '+' :: rest => if rest.isEmpty then none else (digitsToNatAux rest 0).map Int.ofNat
  | '-' :: rest => if rest.isEmpty then none else (digitsToNatAux rest 0).map fun n => -(Int.ofNat n)
  | rest => if rest.isEmpty then none else (digitsToNatAux rest 0).map Int.ofNat

/-- Python's `s[0:-n]` for `n ≥ 1`. -/
def strDropRight (s : String) (n : Nat) : String := ⟨s.data.take (s.data.length - n)⟩

/-- Python's `s.split(sep)[-1]`. -/
def afterLastStr (s pat : String) : String := ⟨(pySplitList pat.data s.data).getLastD s.data⟩

/-! ### convert_size_to_bytes (ugrstoragestats.py, lines 1176-1204) -/

/-- The `multipliers` dict of `convert_size_to_bytes`, in insertion
(= iteration) order. -/
def multipliers : List (String × Int) :=
  [("kib", 1024), ("mib", 1048576), ("gib", 1073741824),
   ("tib", 1099511627776), ("pib", 1125899906842624),
   ("kb", 1000), ("mb", 1000000), ("gb", 1000000000),
   ("tb", 1000000000000), ("pb", 1000000000000000)]

/-- Result of `convert_size_to_bytes`: a returned integer, the
`print('Malformed input!'); exit()` path (process exit), or an uncaught
ValueError from `int(...)` outside the final try/except. -/
inductive ConvResult where
  | ok (n : Int)
  | malformed
  | valueErrorCrash
deriving DecidableEq

/-- `convert_size_to_bytes(size)` from ugrstoragestats.py: try each dict
suffix in iteration order against `size.lower()`; otherwise a bare `b`
suffix; otherwise `int(size)`, whose ValueError is the only one caught. -/
def convert_size_to_bytes (size : String) : ConvResult :=
  match multipliers.find? (fun p => strEndsWithStr (pyLower size) p.1) with
  | some p =>
    match pyInt (strDropRight size p.1.length) with
    | some n => .ok (n * p.2)
    | none => .valueErrorCrash
  | none =>
    if strEndsWithStr (pyLower size) "b" then
      match pyInt (strDropRight size 1) with
      | some n => .ok n
      | none => .valueErrorCrash
    else
      match pyInt size with
      | some n => .ok n
      | none => .malformed

/-! ### parse_conf_files (dynafed_storagestats/configloader.py, lines 211-300) -/

/-- One storage share record of the `_storage_shares` dict.  The fields
`id`, `url` and `plugin` are `Option` because `setdefault(_id, {})` in
the setting-line branch can create a record that lacks them; `settings`
is `Option` because the declaration-line branch never initialises the
`plugin_settings` key. -/
structure ShareRec where
  sid : Option String
  url : Option String
  plugin : Option String
  settings : Option (List (String × String))
deriving DecidableEq

/-- Scanner state of `parse_conf_files`: the `_storage_shares` dict (an
insertion-ordered association list), the `_global_settings` dict, and the
loop variable `_id`, which Python leaves undefined until the first
share-declaration line (`none` models the unbound state). -/
structure PState where
  shares : List (String × ShareRec)
  globals : List (String × String)
  currentId : Option String
deriving DecidableEq

def initPState : PState := ⟨[], [], none⟩

/-- Errors of the scan: the deliberate `DSSConfigFileErrorIDMismatch`
raise (carrying `storage_share=_id`, `line_number` from `enumerate`,
`config_file` and `line=_line.split(":")[0]` exactly as the source
passes them), and the uncaught Python exceptions of the other paths. -/
inductive PErr where
  | idMismatch (shareId : String) (lineNumber : Nat) (configFile : String) (lineKey : String)
  | nameError
  | valueError
  | indexError
  | keyError (key : String)
deriving DecidableEq

inductive StepRes where
  | ok (st : PState)
  | err (e : PErr)
deriving DecidableEq

/-- Python dict update on an association list: overwrite in place when
the key exists (position preserved), append otherwise. -/
def updateAssoc (l : List (String × String)) (k v : String) : List (String × String) :=
  match l with
  | [] => [(k, v)]
  | (k', v') :: rest => if k' = k then (k, v) :: rest else (k', v') :: updateAssoc rest k v

def lookupAssoc (l : List (String × String)) (k : String) : Option String :=
  match l with
  | [] => none
  | (k', v) :: rest => if k' = k then some v else lookupAssoc rest k

def updateShares (l : List (String × ShareRec)) (k : String) (f : ShareRec → ShareRec)
    (dflt : ShareRec) : List (String × ShareRec) :=
  match l with
  | [] => [(k, f dflt)]
  | (k', r) :: rest => if k' = k then (k, f r) :: rest else (k', r) :: updateShares rest k f dflt

def emptyShareRec : ShareRec := ⟨none, none, none, none⟩

/-- The share-declaration branch: `setdefault(_id, {})` then update the
`id`, `url` and `plugin` keys (plugin is the filename component of the
plugin path). -/
def insertShareDecl (l : List (String × ShareRec)) (id plugin url : String) :
    List (String × ShareRec) :=
  updateShares l id
    (fun r => { r with sid := some (pyStrip id), url := some (pyStrip url),
                       plugin := some (afterLastStr plugin "/") })
    emptyShareRec

/-- The local-setting branch: `setdefault(_id, {})`,
`setdefault('plugin_settings', {})`, then update the setting key. -/
def addShareSetting (l : List (String × ShareRec)) (id setting value : String) :
    List (String × ShareRec) :=
  updateShares l id
    (fun r =>
      let m := r.settings.getD []
      { r with settings := some (updateAssoc m setting value) })
    emptyShareRec

/-- The tokens after the marker of a share-declaration line:
`_plugin, _id, _concurrency, _url = _line.split()[1::]` succeeds exactly
when four tokens follow the first one, otherwise Python raises
ValueError. -/
def declTokens (line : String) : Option (String × String × String × String) :=
  match (pyWhitespaceSplit line).drop 1 with
  | [p, i, c, u] => some (p, i, c, u)
  | _ => none

/-- `_line.partition(":")[::2]`: the text before the first colon and the
text after it (the whole line and `""` when there is no colon). -/
def partitionColon (line : String) : String × String :=
  match pySplitStr line ":" with
  | [] => (line, "")
  | k :: rest => (k, String.intercalate ":" rest)

/-- One iteration of the line loop of `parse_conf_files`, for the line
with 0-based index `lineNo` (the value `enumerate` produces) of file
`file`. -/
def processLine (file : String) (lineNo : Nat) (raw : String) (st : PState) : StepRes :=
  let line := pyStrip raw
  if listStartsWith ['#'] line.data then .ok st
  else if containsStr line "glb.locplugin[]" then
    match declTokens line with
    | some (plugin, id, _conc, url) =>
      .ok { st with shares := insertShareDecl st.shares id plugin url, currentId := some id }
    | none => .err .valueError
  else if containsStr line "locplugin" then
    let kv := partitionColon line
    match (pySplitStr kv.1 ".").get? 1 with
    | none => .err .indexError
    | some seg =>
      if seg = "*" then
        .ok { st with globals := updateAssoc st.globals (afterLastStr kv.1 "*.") (pyStrip kv.2) }
      else
        match st.currentId with
        | none => .err .nameError
        | some i =>
          if i = seg then
            .ok { st with shares := addShareSetting st.shares i (afterLastStr kv.1 (i ++ "."))
                                      (pyStrip kv.2) }
          else .err (.idMismatch i lineNo file ((pySplitStr line ":").headD line))
  else .ok st

/-- The `enumerate(_file)` loop over one file's lines, starting at index
`idx`. -/
def processLines (file : String) (st : PState) (idx : Nat) : List String → StepRes
  | [] => .ok st
  | l :: ls =>
    match processLine file idx l st with
    | .ok st' => processLines file st' (idx + 1) ls
    | .err e => .err e

/-- The outer loop of `parse_conf_files` over the configuration files
(each file given as its name and its list of lines); `_id` and the
accumulated dicts persist across files. -/
def processFiles (st : PState) : List (String × List String) → StepRes
  | [] => .ok st
  | (name, lines) :: rest =>
    match processLines name st 0 lines with
    | .ok st' => processFiles st' rest
    | .err e => .err e

inductive PResult where
  | ok (shares : List (String × ShareRec))
  | err (e : PErr)
deriving DecidableEq

/-- Back-fill of one global setting onto one share: the source evaluates
`_storage_shares[storage_share]['plugin_settings']`, which raises
KeyError when the share never had a local setting, and (in the logging
call of the applying branch) `_storage_shares[storage_share]['id']`. -/
def applyGlobalToShare (setting value : String) (r : ShareRec) :
    Except PErr ShareRec :=
  match r.settings with
  | none => .error (.keyError "plugin_settings")
  | some m =>
    if (lookupAssoc m setting).isSome then .ok r
    else
      match r.sid with
      | none => .error (.keyError "id")
      | some _ => .ok { r with settings := some (updateAssoc m setting value) }

def applyGlobalAll (setting value : String) :
    List (String × ShareRec) → Except PErr (List (String × ShareRec))
  | [] => .ok []
  | (k, r) :: rest =>
    match applyGlobalToShare setting value r with
    | .error e => .error e
    | .ok r' =>
      match applyGlobalAll setting value rest with
      | .error e => .error e
      | .ok rest' => .ok ((k, r') :: rest')

def applyGlobals (shares : List (String × ShareRec)) :
    List (String × String) → Except PErr (List (String × ShareRec))
  | [] => .ok shares
  | (s, v) :: gs =>
    match applyGlobalAll s v shares with
    | .error e => .error e
    | .ok shares' => applyGlobals shares' gs

/-- `parse_conf_files(config_files)`: scan every file, then back-fill the
global settings onto every share missing them. -/
def parse_conf_files (files : List (String × List String)) : PResult :=
  match processFiles initPState files with
  | .err e => .err e
  | .ok st =>
    match applyGlobals st.shares st.globals with
    | .error e => .err e
    | .ok shares => .ok shares

/-- Outcome of `get_storage_shares` (configloader.py, lines 130-165): a
`DSSConfigFileErrorIDMismatch` from the parse is caught and turned into
`sys.exit(1)` (fatal to the whole run); any other exception of the parse
is uncaught; otherwise the share dictionary is handed on. -/
inductive RunOutcome where
  | exitCritical
  | crash (e : PErr)
  | proceed (shares : List (String × ShareRec))
deriving DecidableEq

def get_storage_shares (files : List (String × List String)) : RunOutcome :=
  match parse_conf_files files with
  | .err (.idMismatch _ _ _ _) => .exitCritical
  | .err e => .crash e
  | .ok shares => .proceed shares

/-! ### Python setting values -/

/-- A plugin-option value as the Python code stores it: the raw
configuration string, an integer (after quota conversion), or a boolean
(after boolean coercion). -/
inductive PyVal where
  | str (s : String)
  | int (n : Int)
  | bool (b : Bool)
deriving DecidableEq

/-- Python truthiness of a `PyVal`. -/
def pyTruthy : PyVal → Bool
  | .str s => !s.isEmpty
  | .int n => n != 0
  | .bool b => b

/-- Python `int(x)` on a stored value. -/
def pyIntLike : PyVal → Option Int
  | .int n => some n
  | .bool b => some (if b then 1 else 0)
  | .str s => pyInt s

/-- Python `%s` formatting of a stored value. -/
def pyShow : PyVal → String
  | .str s => s
  | .int n => toString n
  | .bool b => if b then "True" else "False"

def lookupPyAssoc (l : List (String × PyVal)) (k : String) : Option PyVal :=
  match l with
  | [] => none
  | (k', v) :: rest => if k' = k then some v else lookupPyAssoc rest k

def updatePyAssoc (l : List (String × PyVal)) (k : String) (v : PyVal) :
    List (String × PyVal) :=
  match l with
  | [] => [(k, v)]
  | (k', v') :: rest => if k' = k then (k, v) :: rest else (k', v') :: updatePyAssoc rest k v

/-! ### StorageStats.validate_plugin_options (ugrstoragestats.py, lines 477-546) -/

/-- One entry of the `validators` dict: `required`, the optional
`default` key, the optional `valid` list, and whether the `boolean` key
is present. -/
structure VRule where
  required : Bool
  default : Option PyVal := none
  valid : Option (List String) := none
  boolean : Bool := false
deriving DecidableEq

/-- The base `StorageStats.validators` table (lines 398-409), in dict
insertion order. -/
def baseValidators : List (String × VRule) :=
  [("quota", { required := false, default := some (.str "api") }),
   ("ssl_check", { required := false, default := some (.bool true), boolean := true,
                   valid := some ["true", "false", "yes", "no"] })]

/-- `S3StorageStats.validators` after the subclass `update` (lines
707-733). -/
def s3Validators : List (String × VRule) :=
  baseValidators ++
  [("s3.alternate", { required := false, default := some (.str "false"),
                      valid := some ["true", "false", "yes", "no"] }),
   ("s3.api", { required := true, default := some (.str "generic"),
                valid := some ["ceph-admin", "generic"] }),
   ("s3.priv_key", { required := true }),
   ("s3.pub_key", { required := true }),
   ("s3.region", { required := true, default := some (.str "us-east-1") }),
   ("s3.signature_ver", { required := false, default := some (.str "s3v4"),
                          valid := some ["s3", "s3v4"] })]

/-- `DAVStorageStats.validators` after the subclass `update` (lines
977-984). -/
def davValidators : List (String × VRule) :=
  baseValidators ++
  [("cli_certificate", { required := true }),
   ("cli_private_key", { required := true })]

/-- The object state `validate_plugin_options` mutates: the
`plugin_options` dict plus the `status`/`debug` attributes that record
caught warnings (`debug` entries are `Option` since the warning objects
carry `debug=None`). -/
structure VState where
  opts : List (String × PyVal)
  status : String
  debug : List (Option String)
deriving DecidableEq

def okStatus : String := "[OK][OK][200]"

/-- `UGRConfigFileErrorMissingRequiredOption` message after the
`[ERROR]` prefix added by `UGRBaseError`. -/
def missingRequiredMessage (option : String) : String :=
  "[ERROR][MissingRequiredOption][000] \"" ++ option ++ "\" is required. Check your configuration."

/-- `UGRConfigFileWarningMissingOption` message after the `[WARN]`
prefix added by `UGRBaseWarning`. -/
def missingOptionMessage (option : String) (dflt : PyVal) : String :=
  "[WARN][MissingOption][000] Unspecified \"" ++ option ++
    "\" option. Using default value \"" ++ pyShow dflt ++ "\""

/-- Membership test `value not in valid_list` (a non-string value is
never equal to a list element, which are all strings). -/
def pyValInList (v : PyVal) (l : List String) : Bool :=
  match v with
  | .str s => l.contains s
  | _ => false

/-- Outcome of `validate_plugin_options`: normal return, a raised
`UGRConfigFileError` (propagates to the subclass constructor, which
records it on the share), the `exit()` inside `convert_size_to_bytes`
(process dies), or an uncaught Python exception. -/
inductive VOutcome where
  | ok (st : VState)
  | raised (message : String) (st : VState)
  | fatalExit
  | crash (kind : String)
deriving DecidableEq

/-- The per-rule loop of `validate_plugin_options`, in `validators`
iteration order.  A missing required option first writes `''` into the
options and then raises; a missing optional option records the caught
warning and fills the default; a present option is checked against the
`valid` list when that key exists (its absence raises a KeyError that is
caught and skips the boolean coercion as well); an out-of-list value
reaches the buggy `UGRConfigFileErrorInvalidOption(...)` call whose
wrong keyword arguments raise an uncaught TypeError. -/
def validateLoop (st : VState) : List (String × VRule) → VOutcome
  | [] => .ok st
  | (name, rule) :: rest =>
    match lookupPyAssoc st.opts name with
    | none =>
      if rule.required then
        .raised (missingRequiredMessage name)
          { st with opts := updatePyAssoc st.opts name (.str "") }
      else
        match rule.default with
        | none => .crash "KeyError"
        | some d =>
          validateLoop
            { st with opts := updatePyAssoc st.opts name d,
                      status := missingOptionMessage name d,
                      debug := st.debug ++ [none] } rest
    | some v =>
      match rule.valid with
      | none => validateLoop st rest
      | some vl =>
        if pyValInList v vl then
          if rule.boolean then
            match v with
            | .str s =>
              let b : Bool := !(pyLower s == "false" || pyLower s == "no")
              validateLoop { st with opts := updatePyAssoc st.opts name (.bool b) } rest
            | _ => .crash "AttributeError"
          else validateLoop st rest
        else .crash "TypeError"

/-- The `ssl_check`/`ca_path` step after the loop (lines 536-542). -/
def sslCaStep (st : VState) : VOutcome :=
  match lookupPyAssoc st.opts "ssl_check" with
  | none => .crash "KeyError"
  | some v =>
    if pyTruthy v then
      match lookupPyAssoc st.opts "ca_path" with
      | some cp => .ok { st with opts := updatePyAssoc st.opts "ssl_check" cp }
      | none => .ok st
    else .ok st

/-- The quota step after the loop (lines 544-546): anything other than
the exact string `"api"` is handed to `convert_size_to_bytes`. -/
def quotaStep (st : VState) : VOutcome :=
  match lookupPyAssoc st.opts "quota" with
  | none => .crash "KeyError"
  | some qv =>
    if qv = .str "api" then .ok st
    else
      match qv with
      | .str s =>
        match convert_size_to_bytes s with
        | .ok n => .ok { st with opts := updatePyAssoc st.opts "quota" (.int n) }
        | .malformed => .fatalExit
        | .valueErrorCrash => .crash "ValueError"
      | _ => .crash "AttributeError"

def validate_plugin_options (validators : List (String × VRule)) (st : VState) : VOutcome :=
  match validateLoop st validators with
  | .ok st1 =>
    match sslCaStep st1 with
    | .ok st2 => quotaStep st2
    | o => o
  | o => o

/-! ### Shared stats record -/

/-- The `stats` block of a share.  The package uses the key `filecount`,
the monolith the key `files`; both are the `filecount` field here.  The
timestamp keys play no role in any claim and are omitted. -/
structure StatsRec where
  bytesused : Int
  bytesfree : Int
  filecount : Int
  quota : Int
deriving DecidableEq

/-- Monolith `StorageStats.__init__` stats defaults (lines 370-376):
zero counts and `quota = 1000**4`. -/
def monolithInitStats : StatsRec := ⟨0, 0, 0, 1000000000000⟩

/-- Modelled from the spec: `dynafed_storagestats/base.py` (the package
`StorageShare` class) is not part of src/.  Spec §3: stats are
"initialized to safe defaults (quota = 1 TiB-equivalent sentinel, zero
counts)". -/
def pkgInitStats : StatsRec := ⟨0, 0, 0, 1099511627776⟩

/-! ### process_rfc4331_response (dynafed_storagestats/xml.py, lines 191-236) -/

/-- A DAV RFC4331 response body as the function reads it with
`tree.find('.//quota-available-bytes')` / `quota-used-bytes`: `none`
models an absent element (`find` returns `None`), `some none` an element
with no text, and `some (some v)` an element whose text parses as the
integer `v` (the integer content stands for the text, which is what
`int(...)` makes of it on every path a claim touches). -/
structure DavResponse where
  avail : Option (Option Int)
  used : Option (Option Int)
deriving DecidableEq

/-- Outcome of `process_rfc4331_response`: normal return, the raised
`DAVZeroQuotaWarning` (after the stats mutations), the raised
`ErrorDAVQuotaMethod(error="UnsupportedMethod")`, or the uncaught
AttributeError (`find` returned `None` and `.text` was taken) /
TypeError (`int(None)`) / ValueError (unparsable quota setting). -/
inductive RfcOutcome where
  | ok (s : StatsRec)
  | warnZeroQuota (s : StatsRec)
  | unsupportedMethod
  | attributeErrorCrash
  | typeErrorCrash
  | valueErrorCrash
deriving DecidableEq

/-- `process_rfc4331_response(response, storage_share)`: read
`quota-available-bytes` (an absent element crashes before the `None`
check; empty text raises the unsupported-method error), assign
`bytesused`/`bytesfree` from the response, then branch on the
`storagestats.quota` setting: `'api'` derives `quota = bytesused +
bytesfree` and afterwards raises the zero-quota warning when `bytesfree
== 0`; any other setting sets `quota = int(setting)` and recomputes
`bytesfree = quota - bytesused`. -/
def process_rfc4331_response (resp : DavResponse) (quotaSetting : PyVal) (s0 : StatsRec) :
    RfcOutcome :=
  match resp.avail with
  | none => .attributeErrorCrash
  | some availText =>
    match availText with
    | none => .unsupportedMethod
    | some free =>
      match resp.used with
      | none => .attributeErrorCrash
      | some none => .typeErrorCrash
      | some (some used) =>
        let s1 := { s0 with bytesused := used, bytesfree := free }
        if quotaSetting = .str "api" then
          let s2 := { s1 with quota := used + free }
          if free = 0 then .warnZeroQuota s2 else .ok s2
        else
          match pyIntLike quotaSetting with
          | some q => .ok { s1 with quota := q, bytesfree := q - used }
          | none => .valueErrorCrash

/-- Which of the two quota derivations the `if` of lines 218-235
selects. -/
inductive QuotaDerivation where
  | api
  | config
deriving DecidableEq

def quotaBranch (v : PyVal) : QuotaDerivation :=
  if v = .str "api" then .api else .config

/-- Modelled from the spec: the package module that invokes the DAV
collector and records raised warnings/errors is not part of src/.
Spec §7: each non-fatal error or warning "is caught at the point of the
failing share's processing, recorded into that share's `status`
(latest) and `debug` (full history)"; warnings do not undo the partial
stats already written onto the share. -/
structure PkgShareState where
  stats : StatsRec
  status : String
  debug : List String
deriving DecidableEq

def recordRfcOutcome (sh : PkgShareState) (o : RfcOutcome) : PkgShareState :=
  match o with
  | .ok s => { sh with stats := s }
  | .warnZeroQuota s =>
    { sh with stats := s, status := "[WARNING]DAVZeroQuotaWarning",
              debug := sh.debug ++ ["[WARNING]DAVZeroQuotaWarning"] }
  | .unsupportedMethod =>
    { sh with status := "[ERROR]UnsupportedMethod",
              debug := sh.debug ++ ["[ERROR]UnsupportedMethod"] }
  | _ => sh

/-! ### list_blobs (dynafed_storagestats/azure/helpers.py, lines 16-82) -/

def intSum : List Int → Int
  | [] => 0
  | x :: xs => x + intSum xs

/-- What the Azure `list_blobs` API call produces: the blob
content-lengths on success, or one of the three caught Azure exception
classes. -/
inductive AzureInput where
  | blobs (sizes : List Int)
  | missingResource
  | httpError
  | azureError
deriving DecidableEq

/-- Outcome of `list_blobs`: the three typed raises of the except
clauses, success, or the uncaught TypeError when the configured
`storagestats.quota` is still a string (the helper assigns it to
`stats['quota']` without `int(...)` and then subtracts). -/
inductive AzureOutcome where
  | ok (s : StatsRec)
  | errContainerNotFound
  | errConnectionAzureAPI
  | errConnection
  | typeErrorCrash
deriving DecidableEq

/-- `list_blobs(storage_share)` from azure/helpers.py: sum the
content-lengths and count the blobs, then `bytesused = total`,
`quota = plugin_settings['storagestats.quota']`,
`bytesfree = quota - total`, `filecount = count`. -/
def list_blobs (inp : AzureInput) (quotaSetting : PyVal) (s0 : StatsRec) : AzureOutcome :=
  match inp with
  | .missingResource => .errContainerNotFound
  | .httpError => .errConnectionAzureAPI
  | .azureError => .errConnection
  | .blobs sizes =>
    let tb := intSum sizes
    let s1 := { s0 with bytesused := tb }
    match quotaSetting with
    | .int q => .ok { s1 with quota := q, bytesfree := q - tb, filecount := sizes.length }
    | .bool b =>
      .ok { s1 with quota := if b then 1 else 0,
                    bytesfree := (if b then 1 else 0) - tb, filecount := sizes.length }
    | .str _ => .typeErrorCrash

/-! ### S3 generic listing (ugrstoragestats.py, lines 858-950) -/

/-- One `list_objects` response of the paginated loop: `contents` is the
`Contents` key (absent on empty buckets, which the code answers with a
break), `nextMarker` the `NextMarker` key whose absence ends the loop. -/
structure S3Page where
  contents : Option (List Int)
  nextMarker : Option String
deriving DecidableEq

/-- The `while True` pagination loop (lines 883-933) with the
`total_bytes`/`total_files` accumulators: sum the `Size` of each object
of each page, stop when a page has no `Contents` or no `NextMarker`.
The page list is the sequence of responses the provider serves; an
exhausted list behaves like a final page. -/
def listObjectsLoop : List S3Page → Int → Int → Int × Int
  | [], tb, tf => (tb, tf)
  | p :: rest, tb, tf =>
    match p.contents with
    | none => (tb, tf)
    | some sizes =>
      let tb' := tb + intSum sizes
      let tf' := tf + (sizes.length : Int)
      match p.nextMarker with
      | none => (tb', tf')
      | some _ => listObjectsLoop rest tb' tf'

/-- `UGRStorageStatsQuotaWarning` message after the `[WARN]` prefix. -/
def noQuotaMessage : String :=
  "[WARN][NoQuotaGiven][000] No quota obtained from API or configuration file. Using default of 1TB"

/-- Outcome of the S3 `generic` strategy: normal return, the raised
no-quota warning (after all stats mutations), or the uncaught TypeError
when a string quota meets the subtraction. -/
inductive S3Outcome where
  | ok (s : StatsRec)
  | warnNoQuota (s : StatsRec) (message : String)
  | typeErrorCrash
deriving DecidableEq

/-- The `generic` branch of `S3StorageStats.get_storagestats` after the
loop (lines 935-950): `bytesused = total_bytes`; with `quota == 'api'`
the 1 TB default is taken, `files` and `bytesfree` are set and the
no-quota warning is raised; otherwise the configured quota is used. -/
def s3_generic_get_storagestats (pages : List S3Page) (quotaSetting : PyVal) (s0 : StatsRec) :
    S3Outcome :=
  let r := listObjectsLoop pages 0 0
  let s1 := { s0 with bytesused := r.1 }
  if quotaSetting = .str "api" then
    let s2 := { s1 with quota := 1000000000000, filecount := r.2 }
    .warnNoQuota { s2 with bytesfree := s2.quota - s2.bytesused } noQuotaMessage
  else
    match quotaSetting with
    | .int q => .ok { s1 with quota := q, filecount := r.2, bytesfree := q - r.1 }
    | .bool b =>
      let q : Int := if b then 1 else 0
      .ok { s1 with quota := q, filecount := r.2, bytesfree := q - r.1 }
    | .str _ => .typeErrorCrash

/-! ### Construction and dispatch (ugrstoragestats.py get_endpoints, lines
1142-1160, and the __main__ loop, lines 1225-1233; configloader.py
get_storage_share_objects, lines 168-208) -/

/-- What one share's collector does when the __main__ loop calls
`get_storagestats()`: return normally with the stats it wrote, raise a
`UGRStorageStatsWarning` / `UGRStorageStatsError` after writing partial
stats (the two exception classes the loop catches), or raise any other
exception (for instance the KeyError of `stats['Code']` at line 816) —
which the loop does not catch, so the process dies.  The message is the
exception's `message`, the payload its `debug` attribute (which several
raise sites leave as `None`). -/
inductive CollectBehavior where
  | ok (s : StatsRec)
  | warn (s : StatsRec) (message : String) (dbg : Option String)
  | err (s : StatsRec) (message : String) (dbg : Option String)
  | crash (kind : String)
deriving DecidableEq

/-- One configured share as the dispatch pipeline receives it: its id,
its plugin identifier, the raw plugin options its constructor hands to
`validate_plugin_options`, and its collector's behaviour. -/
structure RawShare where
  rid : String
  plugin : String
  opts : List (String × PyVal)
  behavior : CollectBehavior
deriving DecidableEq

/-- A constructed `StorageStats` object: id, stats, the `status` string
(last message wins) and the append-only `debug` list. -/
structure Endpoint where
  eid : String
  stats : StatsRec
  status : String
  debug : List (Option String)
  behavior : CollectBehavior
deriving DecidableEq

/-- The monolith `factory` plugin table (lines 1124-1131). -/
def supportedPluginsMono : List String :=
  ["libugrlocplugin_dav.so", "libugrlocplugin_http.so", "libugrlocplugin_s3.so"]

/-- `UGRUnsupportedPluginError` message after the `[ERROR]` prefix. -/
def unsupportedPluginMessage (plugin : String) : String :=
  "[ERROR][UnsupportedPlugin][000] StorageStats method for \"" ++ plugin ++
    "\" not implemented yet."

/-- The validator table installed by the subclass the `factory` chooses:
`libugrlocplugin_s3.so` maps to `S3StorageStats`, the DAV and HTTP
plugins to `DAVStorageStats`. -/
def validatorsFor (plugin : String) : List (String × VRule) :=
  if plugin = "libugrlocplugin_s3.so" then s3Validators else davValidators

/-- How a share's construction can end besides yielding an object: the
`exit()` reached through `convert_size_to_bytes` on an unparsable quota
string, or an uncaught exception escaping `validate_plugin_options`
(for instance the TypeError of the broken
`UGRConfigFileErrorInvalidOption(...)` call, lines 516-521).  Both kill
the process, since the constructor catches only `UGRConfigFileError`
and `get_endpoints` only `UGRUnsupportedPluginError`. -/
inductive AbortKind where
  | exited
  | uncaught (kind : String)
deriving DecidableEq

/-- One iteration of `get_endpoints` (lines 1149-1158): a supported
plugin runs the subclass constructor, which calls
`validate_plugin_options` inside `try ... except UGRConfigFileError`.
A normal return keeps the warnings the validator recorded on the
object; a raised `UGRConfigFileError` is caught and recorded
(`debug.append(ERR.debug)` — `None` for these raises — and
`status = ERR.message`); the `exit()` and uncaught-exception outcomes
abort the whole run.  An unsupported plugin is caught and replaced by a
generic `StorageStats` carrying the error (its `get_storagestats` is
`pass`, modelled as returning the unchanged initial stats), with
`ERR.debug` being `None` for this exception. -/
def buildEndpoint (r : RawShare) : Except AbortKind Endpoint :=
  if supportedPluginsMono.contains r.plugin then
    match validate_plugin_options (validatorsFor r.plugin) ⟨r.opts, okStatus, []⟩ with
    | .ok st => .ok ⟨r.rid, monolithInitStats, st.status, st.debug, r.behavior⟩
    | .raised m st => .ok ⟨r.rid, monolithInitStats, m, st.debug ++ [none], r.behavior⟩
    | .fatalExit => .error .exited
    | .crash kind => .error (.uncaught kind)
  else
    .ok ⟨r.rid, monolithInitStats, unsupportedPluginMessage r.plugin, [none],
      .ok monolithInitStats⟩

/-- `get_endpoints` constructs every share's object before any
collection happens; a construction abort on one share kills the run
with the earlier objects never dispatched. -/
def get_endpoints : List RawShare → Except AbortKind (List Endpoint)
  | [] => .ok []
  | r :: rest =>
    match buildEndpoint r with
    | .error k => .error k
    | .ok e =>
      match get_endpoints rest with
      | .error k => .error k
      | .ok es => .ok (e :: es)

/-- One iteration of the __main__ dispatch loop (lines 1225-1233):
`endpoint.get_storagestats()` inside `try`, with
`except UGRStorageStatsWarning` and `except UGRStorageStatsError` both
appending the exception's debug and overwriting the status; any other
exception propagates out of the loop and kills the process. -/
def stepEndpoint (e : Endpoint) : Except String Endpoint :=
  match e.behavior with
  | .ok s => .ok { e with stats := s }
  | .warn s m d => .ok { e with stats := s, status := m, debug := e.debug ++ [d] }
  | .err s m d => .ok { e with stats := s, status := m, debug := e.debug ++ [d] }
  | .crash kind => .error kind

/-- The __main__ loop over the constructed endpoints: an uncaught
collector exception ends the run having fully processed only the shares
before the crashing one. -/
def mainDispatchLoop : List Endpoint → Except (List Endpoint × String) (List Endpoint)
  | [] => .ok []
  | e :: rest =>
    match stepEndpoint e with
    | .error kind => .error ([], kind)
    | .ok e' =>
      match mainDispatchLoop rest with
      | .error (pre, kind) => .error (e' :: pre, kind)
      | .ok es => .ok (e' :: es)

/-- Result of one whole monolith pass. -/
inductive RunResult where
  | ok (es : List Endpoint)
  | abortedInConstruction (k : AbortKind)
  | abortedInDispatch (processed : List Endpoint) (kind : String)
deriving DecidableEq

/-- The whole monolith pass over a batch: construction then dispatch. -/
def runPass (rs : List RawShare) : RunResult :=
  match get_endpoints rs with
  | .error k => .abortedInConstruction k
  | .ok es =>
    match mainDispatchLoop es with
    | .error (pre, kind) => .abortedInDispatch pre kind
    | .ok es' => .ok es'

/-- The endpoint a non-aborting construction yields (a placeholder on
the abort paths, which every use excludes by hypothesis). -/
def buildOne (r : RawShare) : Endpoint :=
  match buildEndpoint r with
  | .ok e => e
  | .error _ => ⟨r.rid, monolithInitStats, okStatus, [], .ok monolithInitStats⟩

/-- Does this share's construction complete without aborting the run? -/
def buildsOk (r : RawShare) : Bool :=
  match buildEndpoint r with
  | .ok _ => true
  | .error _ => false

/-- The processed endpoint a non-crashing dispatch iteration yields. -/
def stepOne (e : Endpoint) : Endpoint :=
  match stepEndpoint e with
  | .ok e' => e'
  | .error _ => e

/-- Does this endpoint's collector finish without an uncaught
exception? -/
def runsOk (e : Endpoint) : Bool :=
  match stepEndpoint e with
  | .ok _ => true
  | .error _ => false

/-- One share's end-to-end result on the non-aborting paths. -/
def processShare (r : RawShare) : Endpoint := stepOne (buildOne r)

/-- The package `factory` plugin table (configloader.py, lines 27-34). -/
def supportedPluginsPkg : List String :=
  supportedPluginsMono ++ ["libugrlocplugin_azure.so"]

/-- Modelled from the spec: `dynafed_storagestats/exceptions.py` is not
part of src/; per spec §4.3 the unsupported-plugin error carries an
error code and a diagnostic naming the plugin, which
`get_storage_share_objects` copies onto the degraded share. -/
def dssUnsupportedErrorCode : String := "UnsupportedPlugin"

def dssUnsupportedDebug (plugin : String) : String := "Unsupported plugin: " ++ plugin

/-- A constructed package `StorageShare`: in the package both `status`
and `debug` are append-only lists. -/
structure PkgShare where
  pid : String
  typed : Bool
  status : List String
  debug : List String
deriving DecidableEq

/-- One iteration of `get_storage_share_objects` (configloader.py,
lines 180-206): `factory` either yields the typed class or raises
`DSSUnsupportedPluginError`, in which case a plain `StorageShare` is
built and `"[ERROR]" + ERR.debug` / `"[ERROR]" + ERR.error_code` are
appended to its `debug` / `status`. -/
def buildPkgShare (r : RawShare) : PkgShare :=
  if supportedPluginsPkg.contains r.plugin then ⟨r.rid, true, [], []⟩
  else
    ⟨r.rid, false, ["[ERROR]" ++ dssUnsupportedErrorCode],
      ["[ERROR]" ++ dssUnsupportedDebug r.plugin]⟩

def get_storage_share_objects (rs : List RawShare) : List PkgShare := rs.map buildPkgShare

/-! ### Line classification and case lemmas for the scanner -/

/-- The stripped line starts with `#`. -/
def lineIsComment (raw : String) : Bool := listStartsWith ['#'] (pyStrip raw).data

/-- The stripped line contains the share-declaration marker. -/
def lineIsDecl (raw : String) : Bool := containsStr (pyStrip raw) "glb.locplugin[]"

/-- The stripped line contains the setting marker. -/
def lineHasSetting (raw : String) : Bool := containsStr (pyStrip raw) "locplugin"

/-- A recognised setting line: non-comment, not a declaration,
containing the setting marker. -/
def lineIsSetting (raw : String) : Bool :=
  !lineIsComment raw && !lineIsDecl raw && lineHasSetting raw

/-- The ID segment `_key.split('.')[1]` of a setting line. -/
def lineSegment (raw : String) : Option String :=
  (pySplitStr (partitionColon (pyStrip raw)).1 ".").get? 1

/-- The `_line.split(":")[0]` field the ID-mismatch error carries. -/
def lineKey (raw : String) : String := (pySplitStr (pyStrip raw) ":").headD (pyStrip raw)

theorem processLine_comment (f : String) (n : Nat) (raw : String) (st : PState)
    (h : lineIsComment raw = true) : processLine f n raw st = .ok st := by
  unfold processLine
  simp only [lineIsComment] at h
  simp [h]

theorem processLine_ignored (f : String) (n : Nat) (raw : String) (st : PState)
    (h1 : lineIsComment raw = false) (h2 : lineIsDecl raw = false)
    (h3 : lineHasSetting raw = false) : processLine f n raw st = .ok st := by
  unfold processLine
  simp only [lineIsComment] at h1
  simp only [lineIsDecl, containsStr] at h2
  simp only [lineHasSetting, containsStr] at h3
  simp [h1, h2, h3, containsStr]

theorem processLine_wildcard (f : String) (n : Nat) (raw : String) (st : PState)
    (h1 : lineIsComment raw = false) (h2 : lineIsDecl raw = false)
    (h3 : lineHasSetting raw = true) (h4 : lineSegment raw = some "*") :
    processLine f n raw st =
      .ok ⟨st.shares,
           updateAssoc st.globals (afterLastStr (partitionColon (pyStrip raw)).1 "*.")
             (pyStrip (partitionColon (pyStrip raw)).2),
           st.currentId⟩ := by
  unfold processLine
  simp only [lineIsComment] at h1
  simp only [lineIsDecl, containsStr] at h2
  simp only [lineHasSetting, containsStr] at h3
  simp only [lineSegment] at h4
  rw [List.get?_eq_getElem?] at h4
  simp [h1, h2, h3, h4, containsStr]

theorem processLine_noCurrentId (f : String) (n : Nat) (raw : String) (st : PState)
    (seg : String)
    (h1 : lineIsComment raw = false) (h2 : lineIsDecl raw = false)
    (h3 : lineHasSetting raw = true) (h4 : lineSegment raw = some seg)
    (h5 : seg ≠ "*") (h6 : st.currentId = none) :
    processLine f n raw st = .err .nameError := by
  unfold processLine
  simp only [lineIsComment] at h1
  simp only [lineIsDecl, containsStr] at h2
  simp only [lineHasSetting, containsStr] at h3
  simp only [lineSegment] at h4
  rw [List.get?_eq_getElem?] at h4
  simp [h1, h2, h3, h4, h5, h6, containsStr]

theorem processLine_mismatch (f : String) (n : Nat) (raw : String) (st : PState)
    (seg i : String)
    (h1 : lineIsComment raw = false) (h2 : lineIsDecl raw = false)
    (h3 : lineHasSetting raw = true) (h4 : lineSegment raw = some seg)
    (h5 : seg ≠ "*") (h6 : st.currentId = some i) (h7 : i ≠ seg) :
    processLine f n raw st = .err (.idMismatch i n f (lineKey raw)) := by
  unfold processLine
  simp only [lineIsComment] at h1
  simp only [lineIsDecl, containsStr] at h2
  simp only [lineHasSetting, containsStr] at h3
  simp only [lineSegment] at h4
  rw [List.get?_eq_getElem?] at h4
  simp [h1, h2, h3, h4, h5, h6, h7, containsStr, lineKey]

theorem processLines_append (f : String) (st : PState) (i : Nat) (as bs : List String) :
    processLines f st i (as ++ bs) =
      match processLines f st i as with
      | .ok st' => processLines f st' (i + as.length) bs
      | .err e => .err e := by
  induction as generalizing st i with
  | nil => simp [processLines]
  | cons a as ih =>
    simp only [List.cons_append, processLines]
    cases processLine f i a st with
    | ok st' =>
      dsimp only
      rw [show as.append bs = as ++ bs from rfl, ih]
      have e : i + 1 + as.length = i + (a :: as).length := by
        simp [List.length_cons]
        omega
      rw [e]
    | err e => rfl

theorem processFiles_append (st : PState) (as bs : List (String × List String)) :
    processFiles st (as ++ bs) =
      match processFiles st as with
      | .ok st' => processFiles st' bs
      | .err e => .err e := by
  induction as generalizing st with
  | nil => simp [processFiles]
  | cons a as ih =>
    obtain ⟨name, lines⟩ := a
    simp only [List.cons_append, processFiles]
    cases processLines name st 0 lines with
    | ok st' =>
      dsimp only
      rw [show as.append bs = as ++ bs from rfl, ih]
    | err e => rfl

/-- A line that neither declares a share nor carries a non-wildcard
setting: a comment, an ignored line, or a global (`*`) setting line. -/
def benignLine (raw : String) : Prop :=
  lineIsComment raw = true ∨
    (lineIsDecl raw = false ∧ (lineHasSetting raw = true → lineSegment raw = some "*"))

theorem processLines_benign (f : String) (i : Nat) (lines : List String) (st : PState)
    (h : ∀ l ∈ lines, benignLine l) :
    ∃ st', processLines f st i lines = .ok st' ∧ st'.currentId = st.currentId := by
  induction lines generalizing st i with
  | nil => exact ⟨st, rfl, rfl⟩
  | cons l ls ih =>
    have hl := h l (List.mem_cons_self l ls)
    have hls : ∀ x ∈ ls, benignLine x := fun x hx => h x (List.mem_cons_of_mem l hx)
    rcases hl with hc | ⟨hd, hs⟩
    · rw [processLines, processLine_comment f i l st hc]
      exact ih (i + 1) st hls
    · by_cases hcom : lineIsComment l = true
      · rw [processLines, processLine_comment f i l st hcom]
        exact ih (i + 1) st hls
      · have hcom' : lineIsComment l = false := by
          cases hx : lineIsComment l
          · rfl
          · exact absurd hx hcom
        by_cases hset : lineHasSetting l = true
        · have hseg := hs hset
          rw [processLines, processLine_wildcard f i l st hcom' hd hset hseg]
          obtain ⟨st', h1, h2⟩ := ih (i + 1) _ hls
          exact ⟨st', h1, h2⟩
        · have hset' : lineHasSetting l = false := by
            cases hx : lineHasSetting l
            · rfl
            · exact absurd hx hset
          rw [processLines, processLine_ignored f i l st hcom' hd hset']
          exact ih (i + 1) st hls

theorem processFiles_benign (files : List (String × List String)) (st : PState)
    (h : ∀ fl ∈ files, ∀ l ∈ fl.2, benignLine l) :
    ∃ st', processFiles st files = .ok st' ∧ st'.currentId = st.currentId := by
  induction files generalizing st with
  | nil => exact ⟨st, rfl, rfl⟩
  | cons fl fls ih =>
    obtain ⟨name, lines⟩ := fl
    have h1 : ∀ l ∈ lines, benignLine l := fun l hl => h (name, lines) (List.mem_cons_self _ _) l hl
    have h2 : ∀ x ∈ fls, ∀ l ∈ x.2, benignLine l := fun x hx => h x (List.mem_cons_of_mem _ hx)
    obtain ⟨st', hst', hid⟩ := processLines_benign name 0 lines st h1
    rw [processFiles, hst']
    obtain ⟨st'', h3, h4⟩ := ih st' h2
    exact ⟨st'', h3, h4.trans hid⟩

theorem processLine_indexError (f : String) (n : Nat) (raw : String) (st : PState)
    (h1 : lineIsComment raw = false) (h2 : lineIsDecl raw = false)
    (h3 : lineHasSetting raw = true) (h4 : lineSegment raw = none) :
    processLine f n raw st = .err .indexError := by
  unfold processLine
  simp only [lineIsComment] at h1
  simp only [lineIsDecl, containsStr] at h2
  simp only [lineHasSetting, containsStr] at h3
  simp only [lineSegment] at h4
  rw [List.get?_eq_getElem?] at h4
  simp [h1, h2, h3, h4, containsStr]

/-- Discriminator for the documented fatal ID-mismatch error. -/
def isIdMismatchErr : PErr → Bool
  | .idMismatch _ _ _ _ => true
  | _ => false

theorem processLine_noDecl (f : String) (n : Nat) (raw : String) (st : PState)
    (hd : lineIsDecl raw = false) (hid : st.currentId = none) :
    (∃ st', processLine f n raw st = .ok st' ∧ st'.currentId = none) ∨
    (∃ e, processLine f n raw st = .err e ∧ isIdMismatchErr e = false) := by
  by_cases hc : lineIsComment raw = true
  · exact Or.inl ⟨st, processLine_comment f n raw st hc, hid⟩
  · have hc' : lineIsComment raw = false := by
      cases hx : lineIsComment raw
      · rfl
      · exact absurd hx hc
    by_cases hset : lineHasSetting raw = true
    · cases hseg : lineSegment raw with
      | none =>
        exact Or.inr ⟨.indexError, processLine_indexError f n raw st hc' hd hset hseg, rfl⟩
      | some seg =>
        by_cases hw : seg = "*"
        · subst hw
          refine Or.inl ⟨_, processLine_wildcard f n raw st hc' hd hset hseg, hid⟩
        · exact Or.inr ⟨.nameError,
            processLine_noCurrentId f n raw st seg hc' hd hset hseg hw hid, rfl⟩
    · have hset' : lineHasSetting raw = false := by
        cases hx : lineHasSetting raw
        · rfl
        · exact absurd hx hset
      exact Or.inl ⟨st, processLine_ignored f n raw st hc' hd hset', hid⟩

theorem processLines_noDecl (f : String) (i : Nat) (lines : List String) (st : PState)
    (hd : ∀ l ∈ lines, lineIsDecl l = false) (hid : st.currentId = none) :
    (∃ st', processLines f st i lines = .ok st' ∧ st'.currentId = none) ∨
    (∃ e, processLines f st i lines = .err e ∧ isIdMismatchErr e = false) := by
  induction lines generalizing st i with
  | nil => exact Or.inl ⟨st, rfl, hid⟩
  | cons l ls ih =>
    have hl := hd l (List.mem_cons_self l ls)
    have hls : ∀ x ∈ ls, lineIsDecl x = false := fun x hx => hd x (List.mem_cons_of_mem l hx)
    rcases processLine_noDecl f i l st hl hid with ⟨st', h1, h2⟩ | ⟨e, h1, h2⟩
    · rw [processLines, h1]
      exact ih (i + 1) st' hls h2
    · rw [processLines, h1]
      exact Or.inr ⟨e, rfl, h2⟩

theorem processFiles_noDecl (files : List (String × List String)) (st : PState)
    (hd : ∀ fl ∈ files, ∀ l ∈ fl.2, lineIsDecl l = false) (hid : st.currentId = none) :
    (∃ st', processFiles st files = .ok st' ∧ st'.currentId = none) ∨
    (∃ e, processFiles st files = .err e ∧ isIdMismatchErr e = false) := by
  induction files generalizing st with
  | nil => exact Or.inl ⟨st, rfl, hid⟩
  | cons fl fls ih =>
    obtain ⟨name, lines⟩ := fl
    have h1 : ∀ l ∈ lines, lineIsDecl l = false :=
      fun l hl => hd (name, lines) (List.mem_cons_self _ _) l hl
    have h2 : ∀ x ∈ fls, ∀ l ∈ x.2, lineIsDecl l = false :=
      fun x hx => hd x (List.mem_cons_of_mem _ hx)
    rcases processLines_noDecl name 0 lines st h1 hid with ⟨st', hs, hi⟩ | ⟨e, hs, hi⟩
    · rw [processFiles, hs]
      exact ih st' h2 hi
    · rw [processFiles, hs]
      exact Or.inr ⟨e, rfl, hi⟩

theorem applyGlobalToShare_err (s v : String) (r : ShareRec) (e : PErr)
    (h : applyGlobalToShare s v r = .error e) : isIdMismatchErr e = false := by
  unfold applyGlobalToShare at h
  cases hs : r.settings with
  | none =>
    rw [hs] at h
    injection h with h'
    rw [← h']
    rfl
  | some m =>
    rw [hs] at h
    by_cases hq : (lookupAssoc m s).isSome
    · simp [hq] at h
    · simp [hq] at h
      cases hid : r.sid with
      | none =>
        rw [hid] at h
        injection h with h'
        rw [← h']
        rfl
      | some x => rw [hid] at h; cases h

theorem applyGlobalAll_err (s v : String) (shares : List (String × ShareRec)) (e : PErr)
    (h : applyGlobalAll s v shares = .error e) : isIdMismatchErr e = false := by
  induction shares with
  | nil => cases h
  | cons p rest ih =>
    obtain ⟨k, r⟩ := p
    rw [applyGlobalAll] at h
    cases hr : applyGlobalToShare s v r with
    | error e' =>
      rw [hr] at h
      injection h with h'
      rw [← h']
      exact applyGlobalToShare_err s v r e' hr
    | ok r' =>
      rw [hr] at h
      dsimp only at h
      cases hrest : applyGlobalAll s v rest with
      | error e' =>
        rw [hrest] at h
        injection h with h'
        rw [h'] at hrest
        exact ih hrest
      | ok l => rw [hrest] at h; cases h

theorem applyGlobals_err (gs : List (String × String)) (shares : List (String × ShareRec))
    (e : PErr) (h : applyGlobals shares gs = .error e) : isIdMismatchErr e = false := by
  induction gs generalizing shares with
  | nil => cases h
  | cons g gs ih =>
    obtain ⟨s, v⟩ := g
    rw [applyGlobals] at h
    cases hall : applyGlobalAll s v shares with
    | error e' =>
      rw [hall] at h
      injection h with h'
      rw [← h']
      exact applyGlobalAll_err s v shares e' hall
    | ok shares' =>
      rw [hall] at h
      dsimp only at h
      exact ih shares' h

/-! ### Lemmas for the S3 listing loop -/

theorem intSum_append (a b : List Int) : intSum (a ++ b) = intSum a + intSum b := by
  induction a with
  | nil => simp [intSum]
  | cons x xs ih => simp [intSum, ih, add_assoc]

/-- All object sizes a page sequence lists. -/
def pagesSizes (l : List S3Page) : List Int := (l.map (fun p => p.contents.getD [])).flatten

theorem listObjectsLoop_eq (ps : List S3Page) (last : S3Page) (tb tf : Int)
    (h1 : ∀ p ∈ ps, p.contents.isSome ∧ p.nextMarker.isSome)
    (h2 : last.contents.isSome) (h3 : last.nextMarker = none) :
    listObjectsLoop (ps ++ [last]) tb tf =
      (tb + intSum (pagesSizes (ps ++ [last])),
       tf + ((pagesSizes (ps ++ [last])).length : Int)) := by
  induction ps generalizing tb tf with
  | nil =>
    cases hc : last.contents with
    | none => rw [hc] at h2; cases h2
    | some sizes =>
      simp [listObjectsLoop, hc, h3, pagesSizes]
  | cons p ps ih =>
    have hp := h1 p (List.mem_cons_self p ps)
    have hps : ∀ x ∈ ps, x.contents.isSome ∧ x.nextMarker.isSome :=
      fun x hx => h1 x (List.mem_cons_of_mem p hx)
    cases hc : p.contents with
    | none => rw [hc] at hp; cases hp.1
    | some s0 =>
      cases hm : p.nextMarker with
      | none => rw [hm] at hp; cases hp.2
      | some m =>
        rw [List.cons_append, listObjectsLoop, hc, hm]
        dsimp only
        rw [ih (tb + intSum s0) (tf + (s0.length : Int)) hps]
        have hsz : pagesSizes (p :: ps ++ [last]) = s0 ++ pagesSizes (ps ++ [last]) := by
          simp [pagesSizes, hc]
        rw [show p :: (ps ++ [last]) = p :: ps ++ [last] from rfl, hsz, intSum_append,
          Prod.mk.injEq]
        constructor
        · ring
        · push_cast [List.length_append]
          ring

/-! ### Claim theorems -/

/-- Claim C7: `convert_size_to_bytes` is a deterministic function of its
input with `convert("1TiB") = 1024**4`, `convert("2GB") = 2*1000**3` and
`convert("500") = 500`; binary suffixes use powers of 1024, decimal
suffixes powers of 1000, matched case-insensitively with the longest
matching suffix winning (the bare `b` suffix is only tried after the
two- and three-letter ones), and the malformed input `"1024x"` takes the
failure path instead of returning a number. -/
theorem c7_convert_size_to_bytes :
    convert_size_to_bytes "1TiB" = .ok 1099511627776
    ∧ convert_size_to_bytes "2GB" = .ok 2000000000
    ∧ convert_size_to_bytes "500" = .ok 500
    ∧ convert_size_to_bytes "1tib" = .ok 1099511627776
    ∧ convert_size_to_bytes "2gB" = .ok 2000000000
    ∧ convert_size_to_bytes "1KiB" = .ok 1024
    ∧ convert_size_to_bytes "1KB" = .ok 1000
    ∧ convert_size_to_bytes "100b" = .ok 100
    ∧ convert_size_to_bytes "1024x" = .malformed
    ∧ (convert_size_to_bytes "xkb" = .valueErrorCrash) := by decide

/-- Claim C5 (code bug): for a response body that truly lacks the
`quota-available-bytes` element, `process_rfc4331_response` crashes with
an AttributeError (`find` returns `None` and `.text` is taken before the
`None` check) instead of raising the unsupported-method error; the
documented `ErrorDAVQuotaMethod(error="UnsupportedMethod")` raise is
reached only when the element is present but empty. -/
theorem c5_missing_fields_crash :
    process_rfc4331_response ⟨none, none⟩ (.str "api") pkgInitStats = .attributeErrorCrash
    ∧ process_rfc4331_response ⟨none, some (some 500)⟩ (.str "api") pkgInitStats =
        .attributeErrorCrash
    ∧ process_rfc4331_response ⟨some none, some none⟩ (.str "api") pkgInitStats =
        .unsupportedMethod
    ∧ (RfcOutcome.attributeErrorCrash == RfcOutcome.unsupportedMethod) = false := by decide

/-- Claim C4 counterexample: with `quota-available-bytes = 0`,
`quota-used-bytes = 500` and quota setting `api`, the code assigns
`quota := bytesused + bytesfree = 500` *before* raising the zero-quota
warning, so the share's quota equals `bytesused` and is not left at the
pre-existing default (1 TiB sentinel). -/
theorem c4_quota_counterexample :
    process_rfc4331_response ⟨some (some 0), some (some 500)⟩ (.str "api") pkgInitStats =
      .warnZeroQuota ⟨500, 0, 0, 500⟩
    ∧ ((⟨500, 0, 0, 500⟩ : StatsRec).quota == pkgInitStats.quota) = false
    ∧ (⟨500, 0, 0, 500⟩ : StatsRec).quota = (⟨500, 0, 0, 500⟩ : StatsRec).bytesused := by decide

/-- Claim C4 (amended): for a zero `quota-available-bytes` with quota
setting `api`, the zero-quota warning is raised and recorded on the
share's status, `bytesfree` remains 0, and `quota` is set to
`bytesused + bytesfree` (that is, to `bytesused`), not left at the
pre-existing default. -/
theorem c4_zero_quota_amended (used : Int) (s0 : StatsRec) (sh : PkgShareState) :
    process_rfc4331_response ⟨some (some 0), some (some used)⟩ (.str "api") s0 =
      .warnZeroQuota ⟨used, 0, s0.filecount, used⟩
    ∧ (recordRfcOutcome sh (.warnZeroQuota ⟨used, 0, s0.filecount, used⟩)).status =
        "[WARNING]DAVZeroQuotaWarning"
    ∧ (recordRfcOutcome sh (.warnZeroQuota ⟨used, 0, s0.filecount, used⟩)).stats.bytesfree = 0 := by
  refine ⟨?_, rfl, rfl⟩
  simp [process_rfc4331_response]

/-- Claim C3 (code bug): a share declared without any share-local
setting lines has no `plugin_settings` dict, and the global back-fill
loop crashes with a KeyError on it instead of applying the global
setting; with at least one local setting per share the parse yields
exactly one record per declared ID and fills globals exactly onto the
shares lacking the key (a local value is never overwritten). -/
theorem c3_global_backfill :
    parse_conf_files [("a.conf",
      ["glb.locplugin[] /usr/lib64/ugr/libugrlocplugin_dav.so share1 15 https://example.org/dir",
       "locplugin.*.ssl_check: false"])] = .err (.keyError "plugin_settings")
    ∧ get_storage_shares [("a.conf",
      ["glb.locplugin[] /usr/lib64/ugr/libugrlocplugin_dav.so share1 15 https://example.org/dir",
       "locplugin.*.ssl_check: false"])] = .crash (.keyError "plugin_settings")
    ∧ parse_conf_files [("b.conf",
      ["glb.locplugin[] /usr/lib64/ugr/libugrlocplugin_dav.so share1 15 https://example.org/dir",
       "locplugin.share1.ssl_check: false",
       "glb.locplugin[] /usr/lib64/ugr/libugrlocplugin_s3.so share2 15 s3://host.example.com/bucket",
       "locplugin.share2.conn_timeout: 10",
       "locplugin.*.ssl_check: true",
       "locplugin.*.storagestats.quota: 1gb"])] =
    .ok [("share1", ⟨some "share1", some "https://example.org/dir", some "libugrlocplugin_dav.so",
            some [("ssl_check", "false"), ("storagestats.quota", "1gb")]⟩),
         ("share2", ⟨some "share2", some "s3://host.example.com/bucket",
            some "libugrlocplugin_s3.so",
            some [("conn_timeout", "10"), ("ssl_check", "true"),
                  ("storagestats.quota", "1gb")]⟩)] := by
  refine ⟨by decide, by decide, by decide⟩

/-- Claim C6: the two quota derivations are selected exclusively by
whether the quota setting is the literal `api`: the RFC4331 processor
then satisfies `quota = bytesused + bytesfree` (also when it raises the
zero-quota warning), while a configured integer quota yields
`bytesfree = quota - bytesused`, both there and in the Azure
collector. -/
theorem c6_quota_derivations :
    (∀ v : PyVal, (quotaBranch v = .api ↔ v = .str "api") ∧
      ¬(quotaBranch v = .api ∧ quotaBranch v = .config))
    ∧ (∀ (used free : Int) (s0 s' : StatsRec),
        (process_rfc4331_response ⟨some (some free), some (some used)⟩ (.str "api") s0 =
            .ok s' ∨
         process_rfc4331_response ⟨some (some free), some (some used)⟩ (.str "api") s0 =
            .warnZeroQuota s') →
        s'.quota = s'.bytesused + s'.bytesfree)
    ∧ (∀ (used free q : Int) (s0 s' : StatsRec),
        process_rfc4331_response ⟨some (some free), some (some used)⟩ (.int q) s0 = .ok s' →
        s'.bytesfree = s'.quota - s'.bytesused)
    ∧ (∀ (sizes : List Int) (q : Int) (s0 s' : StatsRec),
        list_blobs (.blobs sizes) (.int q) s0 = .ok s' →
        s'.bytesfree = s'.quota - s'.bytesused) := by
  refine ⟨?_, ?_, ?_, ?_⟩
  · intro v
    constructor
    · constructor
      · intro h
        by_cases hv : v = .str "api"
        · exact hv
        · rw [quotaBranch, if_neg hv] at h
          cases h
      · intro h
        rw [quotaBranch, if_pos h]
    · rintro ⟨ha, hc⟩
      rw [ha] at hc
      cases hc
  · intro used free s0 s' h
    have key : process_rfc4331_response ⟨some (some free), some (some used)⟩ (.str "api") s0 =
        (if free = 0 then RfcOutcome.warnZeroQuota ⟨used, free, s0.filecount, used + free⟩
         else RfcOutcome.ok ⟨used, free, s0.filecount, used + free⟩) := by
      simp [process_rfc4331_response]
    rw [key] at h
    by_cases hf : free = 0
    · rw [if_pos hf] at h
      rcases h with h | h
      · cases h
      · injection h with h'
        rw [← h']
    · rw [if_neg hf] at h
      rcases h with h | h
      · injection h with h'
        rw [← h']
      · cases h
  · intro used free q s0 s' h
    have key : process_rfc4331_response ⟨some (some free), some (some used)⟩ (.int q) s0 =
        .ok ⟨used, q - used, s0.filecount, q⟩ := by
      simp [process_rfc4331_response, pyIntLike]
    rw [key] at h
    injection h with h'
    rw [← h']
  · intro sizes q s0 s' h
    have key : list_blobs (.blobs sizes) (.int q) s0 =
        .ok ⟨intSum sizes, q - intSum sizes, sizes.length, q⟩ := by
      simp [list_blobs]
    rw [key] at h
    injection h with h'
    rw [← h']

/-- Witness for C6 at concrete inputs. -/
theorem c6_quota_derivations_witness :
    quotaBranch (.str "api") = .api
    ∧ quotaBranch (.int 1000) = .config
    ∧ (⟨500, 1500, 0, 2000⟩ : StatsRec).quota =
        (⟨500, 1500, 0, 2000⟩ : StatsRec).bytesused + (⟨500, 1500, 0, 2000⟩ : StatsRec).bytesfree
    ∧ (⟨12, 88, 2, 100⟩ : StatsRec).bytesfree =
        (⟨12, 88, 2, 100⟩ : StatsRec).quota - (⟨12, 88, 2, 100⟩ : StatsRec).bytesused := by
  refine ⟨(c6_quota_derivations.1 (.str "api")).1.mpr rfl, by decide, ?_, ?_⟩
  · exact c6_quota_derivations.2.1 500 1500 pkgInitStats ⟨500, 1500, 0, 2000⟩
      (Or.inl (by decide))
  · exact c6_quota_derivations.2.2.2 [5, 7] 100 pkgInitStats ⟨12, 88, 2, 100⟩ (by decide)

/-- Claim C8 counterexample: `validate_plugin_options` compares the
quota setting against `"api"` case-sensitively, so `"API"` is handed to
`convert_size_to_bytes`, which hits `exit()` — the whole process dies
(fatal to the batch), not a per-share error; an unparsable quota string
such as `"1024x"` takes the same process-exit path. -/
theorem c8_quota_counterexample :
    validate_plugin_options baseValidators
      ⟨[("quota", .str "API"), ("ssl_check", .str "false")], okStatus, []⟩ = .fatalExit
    ∧ validate_plugin_options baseValidators
        ⟨[("quota", .str "1024x"), ("ssl_check", .str "false")], okStatus, []⟩ = .fatalExit
    ∧ validate_plugin_options baseValidators
        ⟨[("quota", .str "api"), ("ssl_check", .str "false")], okStatus, []⟩ =
      .ok ⟨[("quota", .str "api"), ("ssl_check", .bool false)], okStatus, []⟩ := by decide

/-- Claim C8 (amended): validation returns a normalized mapping or
raises a per-share error (e.g. a missing required option, as for
`s3.api` below, caught by the subclass constructor), but the quota
handling is case-sensitive: only the exact lowercase string `api`
selects provider-reported quota; any other value is parsed as a size,
and an unparsable quota string terminates the whole process via
`exit()` instead of producing a per-share error. -/
theorem c8_quota_amended (q : String) :
    (q = "api" →
      validate_plugin_options baseValidators
        ⟨[("quota", .str q), ("ssl_check", .str "false")], okStatus, []⟩ =
      .ok ⟨[("quota", .str "api"), ("ssl_check", .bool false)], okStatus, []⟩)
    ∧ (∀ n : Int, q ≠ "api" → convert_size_to_bytes q = .ok n →
        validate_plugin_options baseValidators
          ⟨[("quota", .str q), ("ssl_check", .str "false")], okStatus, []⟩ =
        .ok ⟨[("quota", .int n), ("ssl_check", .bool false)], okStatus, []⟩)
    ∧ (q ≠ "api" → convert_size_to_bytes q = .malformed →
        validate_plugin_options baseValidators
          ⟨[("quota", .str q), ("ssl_check", .str "false")], okStatus, []⟩ = .fatalExit)
    ∧ validate_plugin_options s3Validators
        ⟨[("quota", .str "api"), ("ssl_check", .str "false")], okStatus, []⟩ =
      .raised (missingRequiredMessage "s3.api")
        ⟨[("quota", .str "api"), ("ssl_check", .bool false), ("s3.alternate", .str "false"),
          ("s3.api", .str "")],
         missingOptionMessage "s3.alternate" (.str "false"), [none]⟩ := by
  have key : validate_plugin_options baseValidators
      ⟨[("quota", .str q), ("ssl_check", .str "false")], okStatus, []⟩ =
      quotaStep ⟨[("quota", .str q), ("ssl_check", .bool false)], okStatus, []⟩ := rfl
  refine ⟨?_, ?_, ?_, by decide⟩
  · intro h
    subst h
    rw [key]
    decide
  · intro n hne hconv
    rw [key]
    unfold quotaStep
    have hq : lookupPyAssoc [("quota", PyVal.str q), ("ssl_check", PyVal.bool false)] "quota" =
        some (.str q) := rfl
    rw [hq]
    dsimp only
    rw [if_neg (by simp [hne]), hconv]
    simp [updatePyAssoc]
  · intro hne hconv
    rw [key]
    unfold quotaStep
    have hq : lookupPyAssoc [("quota", PyVal.str q), ("ssl_check", PyVal.bool false)] "quota" =
        some (.str q) := rfl
    rw [hq]
    dsimp only
    rw [if_neg (by simp [hne]), hconv]

/-- Witness for C8's amended theorem at the quota strings `"2GB"` and
`"1024x"`. -/
theorem c8_quota_amended_witness :
    validate_plugin_options baseValidators
      ⟨[("quota", .str "2GB"), ("ssl_check", .str "false")], okStatus, []⟩ =
      .ok ⟨[("quota", .int 2000000000), ("ssl_check", .bool false)], okStatus, []⟩
    ∧ validate_plugin_options baseValidators
        ⟨[("quota", .str "1024x"), ("ssl_check", .str "false")], okStatus, []⟩ = .fatalExit := by
  constructor
  · exact (c8_quota_amended "2GB").2.1 2000000000 (by decide) (by decide)
  · exact (c8_quota_amended "1024x").2.2.1 (by decide) (by decide)

/-- Claim C9: the S3 generic strategy follows the continuation marker
until the provider reports no next page, sums every listed object's
size and counts the objects across all pages, and stores the total as
`bytesused` (with the count as the file count, under either quota
branch); in particular two objects of sizes 100 and 200 on a single
page with no marker give `bytesused = 300` and a file count of 2. -/
theorem c9_s3_generic_listing (ps : List S3Page) (last : S3Page) (q : Int) (s0 : StatsRec)
    (h1 : ∀ p ∈ ps, p.contents.isSome ∧ p.nextMarker.isSome)
    (h2 : last.contents.isSome) (h3 : last.nextMarker = none) :
    s3_generic_get_storagestats (ps ++ [last]) (.int q) s0 =
      .ok ⟨intSum (pagesSizes (ps ++ [last])),
           q - intSum (pagesSizes (ps ++ [last])),
           ((pagesSizes (ps ++ [last])).length : Int), q⟩
    ∧ s3_generic_get_storagestats (ps ++ [last]) (.str "api") s0 =
      .warnNoQuota ⟨intSum (pagesSizes (ps ++ [last])),
        1000000000000 - intSum (pagesSizes (ps ++ [last])),
        ((pagesSizes (ps ++ [last])).length : Int), 1000000000000⟩ noQuotaMessage
    ∧ s3_generic_get_storagestats [⟨some [100, 200], none⟩] (.int q) s0 =
      .ok ⟨300, q - 300, 2, q⟩ := by
  have hloop := listObjectsLoop_eq ps last 0 0 h1 h2 h3
  refine ⟨?_, ?_, ?_⟩
  · simp [s3_generic_get_storagestats, hloop]
  · simp [s3_generic_get_storagestats, hloop]
  · have hl : listObjectsLoop [⟨some [100, 200], none⟩] 0 0 = (300, 2) := by decide
    simp [s3_generic_get_storagestats, hl]

/-- Witness for C9 with a two-page listing. -/
theorem c9_s3_generic_listing_witness :
    s3_generic_get_storagestats [⟨some [1, 2], some "m"⟩, ⟨some [3], none⟩] (.int 100)
      pkgInitStats = .ok ⟨6, 94, 3, 100⟩ := by
  have h := (c9_s3_generic_listing [⟨some [1, 2], some "m"⟩] ⟨some [3], none⟩ 100 pkgInitStats
    (by decide) (by decide) rfl).1
  exact h.trans (by decide)

/-- Claim C2 counterexample: a mismatching setting line on the file's
second line (1-based line number 2) raises the fatal error, but the
error carries `line_number = 1` — the 0-based `enumerate` index, one
less than the offending line's conventional line number. -/
theorem c2_line_number_counterexample :
    parse_conf_files [("test.conf",
      ["glb.locplugin[] /usr/lib64/ugr/libugrlocplugin_dav.so share1 15 https://example.org/dir",
       "locplugin.other.ssl_check: false"])] =
      .err (.idMismatch "share1" 1 "test.conf" "locplugin.other.ssl_check")
    ∧ ((1 : Nat) == 2) = false
    ∧ get_storage_shares [("test.conf",
        ["glb.locplugin[] /usr/lib64/ugr/libugrlocplugin_dav.so share1 15 https://example.org/dir",
         "locplugin.other.ssl_check: false"])] = .exitCritical := by decide

/-- Claim C2 (amended): a non-comment setting line whose ID segment is
neither `*` nor the most recently declared ID raises the fatal
ID-mismatch error (the run exits), and the error names the file it
occurred in together with the *0-based* index of the offending line —
one less than the line's conventional 1-based line number. -/
theorem c2_id_mismatch_fatal (prefiles rest : List (String × List String)) (f : String)
    (pre post : List String) (st1 st2 : PState) (i raw seg : String)
    (h1 : processFiles initPState prefiles = .ok st1)
    (h2 : processLines f st1 0 pre = .ok st2)
    (h3 : st2.currentId = some i)
    (h4 : lineIsComment raw = false) (h5 : lineIsDecl raw = false)
    (h6 : lineHasSetting raw = true) (h7 : lineSegment raw = some seg)
    (h8 : seg ≠ "*") (h9 : i ≠ seg) :
    parse_conf_files (prefiles ++ (f, pre ++ raw :: post) :: rest) =
      .err (.idMismatch i pre.length f (lineKey raw))
    ∧ get_storage_shares (prefiles ++ (f, pre ++ raw :: post) :: rest) = .exitCritical := by
  have hline := processLine_mismatch f pre.length raw st2 seg i h4 h5 h6 h7 h8 h3 h9
  have hlines : processLines f st1 0 (pre ++ raw :: post) =
      .err (.idMismatch i pre.length f (lineKey raw)) := by
    rw [processLines_append, h2]
    dsimp only
    rw [Nat.zero_add, processLines, hline]
  have hfiles : processFiles initPState (prefiles ++ (f, pre ++ raw :: post) :: rest) =
      .err (.idMismatch i pre.length f (lineKey raw)) := by
    rw [processFiles_append, h1]
    dsimp only
    rw [processFiles, hlines]
  constructor
  · unfold parse_conf_files
    rw [hfiles]
  · unfold get_storage_shares parse_conf_files
    rw [hfiles]

/-- Witness for C2's amended theorem: the mismatch on the second line
(0-based index 1) of a concrete file. -/
theorem c2_id_mismatch_fatal_witness :
    parse_conf_files [("w.conf",
      ["glb.locplugin[] /usr/lib64/ugr/libugrlocplugin_dav.so share1 15 https://example.org/dir",
       "locplugin.other.ssl_check: false"])] =
      .err (.idMismatch "share1" 1 "w.conf" "locplugin.other.ssl_check") := by
  have h := (c2_id_mismatch_fatal [] [] "w.conf"
    ["glb.locplugin[] /usr/lib64/ugr/libugrlocplugin_dav.so share1 15 https://example.org/dir"]
    [] initPState
    ⟨[("share1", ⟨some "share1", some "https://example.org/dir", some "libugrlocplugin_dav.so",
        none⟩)], [], some "share1"⟩
    "share1" "locplugin.other.ssl_check: false" "other"
    rfl (by decide) rfl (by decide) (by decide) (by decide) (by decide) (by decide)
    (by decide)).1
  exact h.trans (by decide)

/-- Claim C10: a configuration whose first recognised non-wildcard
setting line occurs before any share-declaration line makes the scan
evaluate the never-assigned `_id`, an unhandled NameError — not the
documented ID-mismatch error; and a configuration containing no
share-declaration line at all can never produce the ID-mismatch
error. -/
theorem c10_nameerror_before_declaration :
    (∀ (prefiles rest : List (String × List String)) (f : String)
       (pre post : List String) (raw seg : String),
      (∀ fl ∈ prefiles, ∀ l ∈ fl.2, benignLine l) →
      (∀ l ∈ pre, benignLine l) →
      lineIsSetting raw = true → lineSegment raw = some seg → seg ≠ "*" →
      parse_conf_files (prefiles ++ (f, pre ++ raw :: post) :: rest) = .err .nameError)
    ∧ (∀ files : List (String × List String),
        (∀ fl ∈ files, ∀ l ∈ fl.2, lineIsDecl l = false) →
        ∀ e, parse_conf_files files = .err e → isIdMismatchErr e = false) := by
  constructor
  · intro prefiles rest f pre post raw seg hpref hpre hset hseg hw
    obtain ⟨st1, hf1, hid1⟩ := processFiles_benign prefiles initPState hpref
    obtain ⟨st2, hl2, hid2⟩ := processLines_benign f 0 pre st1 hpre
    have hidn : st2.currentId = none := by rw [hid2, hid1]; rfl
    simp only [lineIsSetting, Bool.and_eq_true, Bool.not_eq_true'] at hset
    obtain ⟨⟨hc, hd⟩, hh⟩ := hset
    have hline := processLine_noCurrentId f pre.length raw st2 seg hc hd hh hseg hw hidn
    have hlines : processLines f st1 0 (pre ++ raw :: post) = .err .nameError := by
      rw [processLines_append, hl2]
      dsimp only
      rw [Nat.zero_add, processLines, hline]
    have hfiles : processFiles initPState (prefiles ++ (f, pre ++ raw :: post) :: rest) =
        .err .nameError := by
      rw [processFiles_append, hf1]
      dsimp only
      rw [processFiles, hlines]
    unfold parse_conf_files
    rw [hfiles]
  · intro files hd e hp
    unfold parse_conf_files at hp
    rcases processFiles_noDecl files initPState hd rfl with ⟨st', hs, _⟩ | ⟨e', hs, hi⟩
    · rw [hs] at hp
      dsimp only at hp
      cases hag : applyGlobals st'.shares st'.globals with
      | error e2 =>
        rw [hag] at hp
        injection hp with h'
        rw [h'] at hag
        exact applyGlobals_err st'.globals st'.shares e hag
      | ok l =>
        rw [hag] at hp
        cases hp
    · rw [hs] at hp
      injection hp with h'
      rw [h'] at hi
      exact hi

/-- Witness for C10 at a concrete two-line configuration. -/
theorem c10_nameerror_witness :
    parse_conf_files [("c.conf", ["# hello", "locplugin.myshare.ssl_check: no"])] =
      .err .nameError := by
  have h := c10_nameerror_before_declaration.1 [] [] "c.conf" ["# hello"] []
    "locplugin.myshare.ssl_check: no" "myshare"
    (by intro fl hfl; cases hfl)
    (by
      intro l hl
      rw [List.mem_singleton] at hl
      subst hl
      exact Or.inl (by decide))
    (by decide) (by decide) (by decide)
  exact h

/-- Witness for C4's amended theorem at a concrete response. -/
theorem c4_zero_quota_amended_witness :
    process_rfc4331_response ⟨some (some 0), some (some 500)⟩ (.str "api") pkgInitStats =
      .warnZeroQuota ⟨500, 0, 0, 500⟩ := by
  have h := (c4_zero_quota_amended 500 pkgInitStats ⟨pkgInitStats, okStatus, []⟩).1
  exact h.trans (by decide)

theorem buildsOk_spec (r : RawShare) (h : buildsOk r = true) :
    buildEndpoint r = .ok (buildOne r) := by
  unfold buildsOk at h
  unfold buildOne
  cases hb : buildEndpoint r with
  | error k => rw [hb] at h; simp at h
  | ok e => rfl

theorem runsOk_spec (e : Endpoint) (h : runsOk e = true) :
    stepEndpoint e = .ok (stepOne e) := by
  unfold runsOk at h
  unfold stepOne
  cases hs : stepEndpoint e with
  | error k => rw [hs] at h; simp at h
  | ok e' => rfl

theorem get_endpoints_append (xs rest : List RawShare) (h : ∀ r ∈ xs, buildsOk r = true) :
    get_endpoints (xs ++ rest) =
      match get_endpoints rest with
      | .error k => .error k
      | .ok es => .ok (xs.map buildOne ++ es) := by
  induction xs with
  | nil =>
    simp only [List.nil_append, List.map_nil]
    cases get_endpoints rest <;> simp
  | cons r xs ih =>
    have hr := h r (List.mem_cons_self r xs)
    have hxs : ∀ x ∈ xs, buildsOk x = true := fun x hx => h x (List.mem_cons_of_mem r hx)
    rw [List.cons_append, get_endpoints, buildsOk_spec r hr]
    dsimp only
    rw [ih hxs]
    cases get_endpoints rest <;> simp

theorem get_endpoints_ok (xs : List RawShare) (h : ∀ r ∈ xs, buildsOk r = true) :
    get_endpoints xs = .ok (xs.map buildOne) := by
  have := get_endpoints_append xs [] h
  simpa [get_endpoints] using this

theorem mainDispatchLoop_append (es rest : List Endpoint) (h : ∀ e ∈ es, runsOk e = true) :
    mainDispatchLoop (es ++ rest) =
      match mainDispatchLoop rest with
      | .error (pre, k) => .error (es.map stepOne ++ pre, k)
      | .ok l => .ok (es.map stepOne ++ l) := by
  induction es with
  | nil =>
    simp only [List.nil_append, List.map_nil]
    cases hr : mainDispatchLoop rest with
    | error pk => obtain ⟨pre, k⟩ := pk; simp
    | ok l => simp
  | cons e es ih =>
    have he := h e (List.mem_cons_self e es)
    have hes : ∀ x ∈ es, runsOk x = true := fun x hx => h x (List.mem_cons_of_mem e hx)
    rw [List.cons_append, mainDispatchLoop, runsOk_spec e he]
    dsimp only
    rw [ih hes]
    cases hr : mainDispatchLoop rest with
    | error pk => obtain ⟨pre, k⟩ := pk; simp
    | ok l => simp

theorem mainDispatchLoop_ok (es : List Endpoint) (h : ∀ e ∈ es, runsOk e = true) :
    mainDispatchLoop es = .ok (es.map stepOne) := by
  have := mainDispatchLoop_append es [] h
  simpa [mainDispatchLoop] using this

/-- Claim C1 counterexample: a settings-validation failure is not always
confined to its share.  In a batch of a healthy DAV share and a share
whose quota is the unparsable string `1024x`, construction of the bad
share reaches `exit()` inside `convert_size_to_bytes` and the whole run
aborts — the healthy share (processed fine when alone, second conjunct)
is never collected.  An invalid option value (`ssl_check: bogus`)
aborts the run through the uncaught TypeError of the broken
`UGRConfigFileErrorInvalidOption(...)` call, and an uncaught exception
inside a collector kills the dispatch loop with the later shares
unprocessed. -/
theorem c1_validation_abort_counterexample :
    runPass
      [⟨"good", "libugrlocplugin_dav.so",
        [("quota", .str "api"), ("ssl_check", .str "false"),
         ("cli_certificate", .str "/tmp/c.pem"), ("cli_private_key", .str "/tmp/k.pem")],
        .ok ⟨10, 90, 1, 100⟩⟩,
       ⟨"bad", "libugrlocplugin_dav.so",
        [("quota", .str "1024x"), ("ssl_check", .str "false"),
         ("cli_certificate", .str "/tmp/c.pem"), ("cli_private_key", .str "/tmp/k.pem")],
        .ok monolithInitStats⟩] = .abortedInConstruction .exited
    ∧ runPass
      [⟨"good", "libugrlocplugin_dav.so",
        [("quota", .str "api"), ("ssl_check", .str "false"),
         ("cli_certificate", .str "/tmp/c.pem"), ("cli_private_key", .str "/tmp/k.pem")],
        .ok ⟨10, 90, 1, 100⟩⟩] =
      .ok [⟨"good", ⟨10, 90, 1, 100⟩, okStatus, [], .ok ⟨10, 90, 1, 100⟩⟩]
    ∧ runPass
      [⟨"good", "libugrlocplugin_dav.so",
        [("quota", .str "api"), ("ssl_check", .str "false"),
         ("cli_certificate", .str "/tmp/c.pem"), ("cli_private_key", .str "/tmp/k.pem")],
        .ok ⟨10, 90, 1, 100⟩⟩,
       ⟨"bad", "libugrlocplugin_dav.so",
        [("quota", .str "api"), ("ssl_check", .str "bogus"),
         ("cli_certificate", .str "/tmp/c.pem"), ("cli_private_key", .str "/tmp/k.pem")],
        .ok monolithInitStats⟩] = .abortedInConstruction (.uncaught "TypeError")
    ∧ runPass
      [⟨"good", "libugrlocplugin_dav.so",
        [("quota", .str "api"), ("ssl_check", .str "false"),
         ("cli_certificate", .str "/tmp/c.pem"), ("cli_private_key", .str "/tmp/k.pem")],
        .ok ⟨10, 90, 1, 100⟩⟩,
       ⟨"bad", "libugrlocplugin_dav.so",
        [("quota", .str "api"), ("ssl_check", .str "false"),
         ("cli_certificate", .str "/tmp/c.pem"), ("cli_private_key", .str "/tmp/k.pem")],
        .crash "KeyError"⟩] =
      .abortedInDispatch [⟨"good", ⟨10, 90, 1, 100⟩, okStatus, [], .ok ⟨10, 90, 1, 100⟩⟩]
        "KeyError" := by
  refine ⟨by decide, by decide, by decide, by decide⟩

/-- Claim C1 (amended): a failure the code catches — an unsupported
plugin at construction, a settings-validation failure raised as a
`UGRConfigFileError` (such as a missing required option), or a
collector-raised `UGRStorageStatsWarning`/`UGRStorageStatsError` — is
caught at that share, recorded into its own status and debug fields,
and the batch is a per-share map: every other share is processed in the
same order with the same outcome as if the failing share were absent.
But a settings-validation failure outside that class — an unparsable
quota string (`exit()` inside `convert_size_to_bytes`) or an invalid
option value (uncaught TypeError) — aborts the whole run during
construction, and an uncaught exception inside a collector aborts the
dispatch loop with only the preceding shares processed. -/
theorem c1_batch_isolation_amended (xs ys : List RawShare) (bad : RawShare) :
    ((∀ r ∈ xs ++ bad :: ys, buildsOk r = true ∧ runsOk (buildOne r) = true) →
      runPass (xs ++ bad :: ys) =
        .ok (xs.map processShare ++ processShare bad :: ys.map processShare))
    ∧ ((∀ r ∈ xs ++ ys, buildsOk r = true ∧ runsOk (buildOne r) = true) →
      runPass (xs ++ ys) = .ok (xs.map processShare ++ ys.map processShare))
    ∧ (supportedPluginsMono.contains bad.plugin = false →
        processShare bad =
          ⟨bad.rid, monolithInitStats, unsupportedPluginMessage bad.plugin, [none],
            .ok monolithInitStats⟩
        ∧ buildsOk bad = true ∧ runsOk (buildOne bad) = true)
    ∧ (∀ (m : String) (st : VState) (s : StatsRec),
        supportedPluginsMono.contains bad.plugin = true →
        validate_plugin_options (validatorsFor bad.plugin) ⟨bad.opts, okStatus, []⟩ =
          .raised m st →
        bad.behavior = .ok s →
        processShare bad = ⟨bad.rid, s, m, st.debug ++ [none], .ok s⟩
        ∧ buildsOk bad = true ∧ runsOk (buildOne bad) = true)
    ∧ (∀ (st : VState) (s : StatsRec) (m : String) (d : Option String),
        supportedPluginsMono.contains bad.plugin = true →
        validate_plugin_options (validatorsFor bad.plugin) ⟨bad.opts, okStatus, []⟩ = .ok st →
        bad.behavior = .warn s m d →
        processShare bad = ⟨bad.rid, s, m, st.debug ++ [d], .warn s m d⟩
        ∧ buildsOk bad = true ∧ runsOk (buildOne bad) = true)
    ∧ (∀ (st : VState) (s : StatsRec) (m : String) (d : Option String),
        supportedPluginsMono.contains bad.plugin = true →
        validate_plugin_options (validatorsFor bad.plugin) ⟨bad.opts, okStatus, []⟩ = .ok st →
        bad.behavior = .err s m d →
        processShare bad = ⟨bad.rid, s, m, st.debug ++ [d], .err s m d⟩
        ∧ buildsOk bad = true ∧ runsOk (buildOne bad) = true)
    ∧ ((∀ r ∈ xs, buildsOk r = true) →
        supportedPluginsMono.contains bad.plugin = true →
        validate_plugin_options (validatorsFor bad.plugin) ⟨bad.opts, okStatus, []⟩ =
          .fatalExit →
        runPass (xs ++ bad :: ys) = .abortedInConstruction .exited)
    ∧ (∀ kind : String, (∀ r ∈ xs, buildsOk r = true) →
        supportedPluginsMono.contains bad.plugin = true →
        validate_plugin_options (validatorsFor bad.plugin) ⟨bad.opts, okStatus, []⟩ =
          .crash kind →
        runPass (xs ++ bad :: ys) = .abortedInConstruction (.uncaught kind))
    ∧ (∀ (st : VState) (kind : String),
        (∀ r ∈ xs, buildsOk r = true ∧ runsOk (buildOne r) = true) →
        (∀ r ∈ ys, buildsOk r = true) →
        supportedPluginsMono.contains bad.plugin = true →
        validate_plugin_options (validatorsFor bad.plugin) ⟨bad.opts, okStatus, []⟩ = .ok st →
        bad.behavior = .crash kind →
        runPass (xs ++ bad :: ys) = .abortedInDispatch (xs.map processShare) kind)
    ∧ get_storage_share_objects (xs ++ bad :: ys) =
        get_storage_share_objects xs ++ buildPkgShare bad :: get_storage_share_objects ys
    ∧ (supportedPluginsPkg.contains bad.plugin = false →
        buildPkgShare bad = ⟨bad.rid, false, ["[ERROR]" ++ dssUnsupportedErrorCode],
          ["[ERROR]" ++ dssUnsupportedDebug bad.plugin]⟩) := by
  refine ⟨?_, ?_, ?_, ?_, ?_, ?_, ?_, ?_, ?_, ?_, ?_⟩
  · intro h
    have hb : ∀ r ∈ xs ++ bad :: ys, buildsOk r = true := fun r hr => (h r hr).1
    have hrun : ∀ e ∈ (xs ++ bad :: ys).map buildOne, runsOk e = true := by
      intro e he
      rw [List.mem_map] at he
      obtain ⟨r, hrm, rfl⟩ := he
      exact (h r hrm).2
    unfold runPass
    rw [get_endpoints_ok _ hb]
    dsimp only
    rw [mainDispatchLoop_ok _ hrun]
    dsimp only
    rw [List.map_map]
    simp [processShare, Function.comp, List.map_append]
    rw [show stepOne ∘ buildOne = processShare from rfl]
  · intro h
    have hb : ∀ r ∈ xs ++ ys, buildsOk r = true := fun r hr => (h r hr).1
    have hrun : ∀ e ∈ (xs ++ ys).map buildOne, runsOk e = true := by
      intro e he
      rw [List.mem_map] at he
      obtain ⟨r, hrm, rfl⟩ := he
      exact (h r hrm).2
    unfold runPass
    rw [get_endpoints_ok _ hb]
    dsimp only
    rw [mainDispatchLoop_ok _ hrun]
    dsimp only
    rw [List.map_map]
    simp [processShare, Function.comp, List.map_append]
    rw [show stepOne ∘ buildOne = processShare from rfl]
  · intro h
    have h' : bad.plugin ∉ supportedPluginsMono := by simpa using h
    refine ⟨?_, ?_, ?_⟩ <;>
      simp [processShare, buildOne, stepOne, buildsOk, runsOk, buildEndpoint, stepEndpoint, h']
  · intro m st s h1 h2 h3
    have h1' : bad.plugin ∈ supportedPluginsMono := by simpa using h1
    refine ⟨?_, ?_, ?_⟩ <;>
      simp [processShare, buildOne, stepOne, buildsOk, runsOk, buildEndpoint, stepEndpoint,
        h1', h2, h3]
  · intro st s m d h1 h2 h3
    have h1' : bad.plugin ∈ supportedPluginsMono := by simpa using h1
    refine ⟨?_, ?_, ?_⟩ <;>
      simp [processShare, buildOne, stepOne, buildsOk, runsOk, buildEndpoint, stepEndpoint,
        h1', h2, h3]
  · intro st s m d h1 h2 h3
    have h1' : bad.plugin ∈ supportedPluginsMono := by simpa using h1
    refine ⟨?_, ?_, ?_⟩ <;>
      simp [processShare, buildOne, stepOne, buildsOk, runsOk, buildEndpoint, stepEndpoint,
        h1', h2, h3]
  · intro hxs h1 hv
    have h1' : bad.plugin ∈ supportedPluginsMono := by simpa using h1
    have hbe : buildEndpoint bad = .error .exited := by simp [buildEndpoint, h1', hv]
    have hge : get_endpoints (bad :: ys) = .error .exited := by
      rw [get_endpoints, hbe]
    unfold runPass
    rw [get_endpoints_append xs (bad :: ys) hxs, hge]
  · intro kind hxs h1 hv
    have h1' : bad.plugin ∈ supportedPluginsMono := by simpa using h1
    have hbe : buildEndpoint bad = .error (.uncaught kind) := by simp [buildEndpoint, h1', hv]
    have hge : get_endpoints (bad :: ys) = .error (.uncaught kind) := by
      rw [get_endpoints, hbe]
    unfold runPass
    rw [get_endpoints_append xs (bad :: ys) hxs, hge]
  · intro st kind hxs hys h1 hv hbeh
    have h1' : bad.plugin ∈ supportedPluginsMono := by simpa using h1
    have hbe : buildEndpoint bad =
        .ok ⟨bad.rid, monolithInitStats, st.status, st.debug, bad.behavior⟩ := by
      simp [buildEndpoint, h1', hv]
    have hball : ∀ r ∈ xs ++ bad :: ys, buildsOk r = true := by
      intro r hr
      rw [List.mem_append] at hr
      rcases hr with hr | hr
      · exact (hxs r hr).1
      · rw [List.mem_cons] at hr
        rcases hr with rfl | hr
        · simp [buildsOk, hbe]
        · exact hys r hr
    have hstep : stepEndpoint (buildOne bad) = .error kind := by
      simp [buildOne, hbe, stepEndpoint, hbeh]
    have hml : mainDispatchLoop (buildOne bad :: ys.map buildOne) = .error ([], kind) := by
      rw [mainDispatchLoop, hstep]
    unfold runPass
    rw [get_endpoints_ok _ hball]
    dsimp only
    rw [List.map_append, List.map_cons]
    rw [mainDispatchLoop_append (xs.map buildOne) (buildOne bad :: ys.map buildOne) (by
      intro e he
      rw [List.mem_map] at he
      obtain ⟨r, hrm, rfl⟩ := he
      exact (hxs r hrm).2)]
    rw [hml]
    dsimp only
    simp [processShare, List.map_map]
  · simp [get_storage_share_objects, List.map_append]
  · intro h
    have h' : bad.plugin ∉ supportedPluginsPkg := by simpa using h
    simp [buildPkgShare, h']

/-- Witness for C1's amended theorem: a healthy DAV share next to a
share whose validation raises a caught missing-required-option error;
both are processed, the failure recorded only on the failing share. -/
theorem c1_batch_isolation_amended_witness :
    runPass
      [⟨"good", "libugrlocplugin_dav.so",
        [("quota", .str "api"), ("ssl_check", .str "false"),
         ("cli_certificate", .str "/tmp/c.pem"), ("cli_private_key", .str "/tmp/k.pem")],
        .ok ⟨10, 90, 1, 100⟩⟩,
       ⟨"bad", "libugrlocplugin_dav.so",
        [("quota", .str "api"), ("ssl_check", .str "false"),
         ("cli_private_key", .str "/tmp/k.pem")],
        .ok monolithInitStats⟩] =
      .ok [⟨"good", ⟨10, 90, 1, 100⟩, okStatus, [], .ok ⟨10, 90, 1, 100⟩⟩,
           ⟨"bad", monolithInitStats, missingRequiredMessage "cli_certificate", [none],
             .ok monolithInitStats⟩] := by
  have h := (c1_batch_isolation_amended
    [⟨"good", "libugrlocplugin_dav.so",
      [("quota", .str "api"), ("ssl_check", .str "false"),
       ("cli_certificate", .str "/tmp/c.pem"), ("cli_private_key", .str "/tmp/k.pem")],
      .ok ⟨10, 90, 1, 100⟩⟩] []
    ⟨"bad", "libugrlocplugin_dav.so",
      [("quota", .str "api"), ("ssl_check", .str "false"),
       ("cli_private_key", .str "/tmp/k.pem")],
      .ok monolithInitStats⟩).1 (by decide)
  exact h.trans (by decide)
